import Mathlib

/- Shallow embedding of the live-browser-preview native module
   (src/app/node_modules/live-browser-preview/): the executable locator,
   process launcher, window identity matcher, window enumerator, the
   Win32 error-code mapping, and the asynchronous close protocol of
   live_browser_preview_win.cc.  Wide strings are embedded as List Char,
   Win32 handles and ids as Nat, and the Windows API surface consumed by
   the module as an explicit environment record.  The close protocol
   (CloseLiveBrowser / CloseLiveBrowserFireCallback /
   CloseLiveBrowserTimerCallback / CloseLiveBrowserAsyncCallback /
   CloseLiveBrowserKillTimers, live_browser_preview_win.cc lines 209-276
   and 397-422) is embedded as a state machine driven by an event trace. -/

namespace LiveBrowserPreview

/-- Portable error code, live_browser_preview_win.cc line 21. -/
def ERR_UNKNOWN : Int := 1

/-- Portable error code, live_browser_preview_win.cc line 22. -/
def ERR_INVALID_PARAMS : Int := 2

/-- Portable error code, live_browser_preview_win.cc line 23. -/
def ERR_NOT_FOUND : Int := 3

/-- Portable error code, live_browser_preview_win.cc line 24. -/
def ERR_CANT_READ : Int := 4

/-- Portable error code, live_browser_preview_win.cc line 25. -/
def ERR_UNSUPPORTED_ENCODING : Int := 5

/-- Portable error code, live_browser_preview_win.cc line 26. -/
def ERR_CANT_WRITE : Int := 6

/-- Portable error code, live_browser_preview_win.cc line 27. -/
def ERR_OUT_OF_SPACE : Int := 7

/-- Portable error code, live_browser_preview_win.cc line 28. -/
def ERR_NOT_FILE : Int := 8

/-- Portable error code, live_browser_preview_win.cc line 29. -/
def ERR_NOT_DIRECTORY : Int := 9

/-- Portable error code, live_browser_preview_win.cc line 30. -/
def ERR_FILE_EXISTS : Int := 10

/-- Portable error code, live_browser_preview_win.cc line 31. -/
def ERR_BROWSER_NOT_INSTALLED : Int := 11

/-- Win32 success code NO_ERROR (WinError.h); also the module's success
return value. -/
def NO_ERROR : Int := 0

/-- Modelled from the spec: the portable error taxonomy of section 7 lists
TIMEOUT directly after BROWSER_NOT_INSTALLED (= 11); the source defines no
such constant, so the spec code is continued numerically. -/
def ERR_TIMEOUT : Int := 12

/-- Modelled from the spec: the portable error taxonomy of section 7 lists
SUPERSEDED directly after TIMEOUT; the source defines no such constant, so
the spec code is continued numerically. -/
def ERR_SUPERSEDED : Int := 13

/-- Win32 error code ERROR_FILE_NOT_FOUND (WinError.h). -/
def ERROR_FILE_NOT_FOUND : Int := 2

/-- Win32 error code ERROR_PATH_NOT_FOUND (WinError.h). -/
def ERROR_PATH_NOT_FOUND : Int := 3

/-- Win32 error code ERROR_ACCESS_DENIED (WinError.h). -/
def ERROR_ACCESS_DENIED : Int := 5

/-- Win32 error code ERROR_WRITE_PROTECT (WinError.h). -/
def ERROR_WRITE_PROTECT : Int := 19

/-- Win32 error code ERROR_HANDLE_DISK_FULL (WinError.h). -/
def ERROR_HANDLE_DISK_FULL : Int := 39

/-- Win32 error code ERROR_ALREADY_EXISTS (WinError.h). -/
def ERROR_ALREADY_EXISTS : Int := 183

/-- The Windows API surface consumed by live_browser_preview_win.cc,
abstracted as an environment record.  Window handles and process ids are
Nat (0 embeds a NULL HWND); wide strings are List Char.
registryChromePath is the App Paths registry value for chrome.exe (none
when RegOpenKeyEx misses); localAppData is SHGetFolderPath
CSIDL_LOCAL_APPDATA; windowProcessId is GetWindowThreadProcessId;
openProcess tells whether OpenProcess succeeds for a pid; moduleFileName
is the GetModuleFileNameEx buffer contents; shortPathName is
GetShortPathName (none when it returns size 0); createProcessError is
GetLastError after a failed CreateProcess (none when CreateProcess
succeeds). -/
structure WinEnv where
  registryChromePath : Option (List Char)
  localAppData : List Char
  windowProcessId : Nat → Nat
  openProcess : Nat → Bool
  moduleFileName : Nat → List Char
  shortPathName : List Char → Option (List Char)
  createProcessError : Option Int

/-- The fixed suffix appended to the local-application-data folder by the
registry-miss fallback, live_browser_preview_win.cc line 318. -/
def chromeFallbackSuffix : List Char :=
  "\\Google\\Chrome\\Application\\chrome.exe".toList

/-- GetPathToLiveBrowser, live_browser_preview_win.cc lines 292-321: the
App Paths registry value when present, otherwise the fallback path under
the current user's local application data. -/
def GetPathToLiveBrowser (env : WinEnv) : List Char :=
  match env.registryChromePath with
  | some wpath => wpath
  | none => env.localAppData ++ chromeFallbackSuffix

/-- ConvertToShortPathName, live_browser_preview_win.cc lines 323-334:
GetShortPathName, failing (false in the source, none here) when the OS
call returns size 0. -/
def ConvertToShortPathName (env : WinEnv) (path : List Char) :
    Option (List Char) :=
  env.shortPathName path

/-- The test performed by wcsicmp returning 0 at
live_browser_preview_win.cc line 162: case-insensitive wide-string
equality. -/
def wcsicmpEqual (a b : List Char) : Bool :=
  a.map Char.toLower == b.map Char.toLower

/-- IsChromeWindow, live_browser_preview_win.cc lines 132-168: a NULL
window handle, a failed OpenProcess, or a failed short-path conversion of
either path yields false; otherwise the short forms of the window's
module path and of the locator result are compared case-insensitively. -/
def IsChromeWindow (env : WinEnv) (hwnd : Nat) : Bool :=
  if hwnd = 0 then false
  else
    let processId := env.windowProcessId hwnd
    if env.openProcess processId then
      let modulePath := env.moduleFileName processId
      let appPath := GetPathToLiveBrowser env
      match ConvertToShortPathName env modulePath with
      | none => false
      | some shortModulePath =>
        match ConvertToShortPathName env appPath with
        | none => false
        | some shortAppPath => wcsicmpEqual shortAppPath shortModulePath
    else false

/-- EnumChromeWindowsCallback, live_browser_preview_win.cc lines 176-198:
returns (continueEnumeration, updatedCount).  A NULL hwnd aborts the
pass; a non-matching window is skipped; a matching window is counted (the
WM_CLOSE SendMessageCallback under closeWindow is commented out in the
source, so closeWindow has no further effect on the count). -/
def EnumChromeWindowsCallback (env : WinEnv) (closeWindow : Bool)
    (hwnd : Nat) (numberOfFoundWindows : Nat) : Bool × Nat :=
  if hwnd = 0 then (false, numberOfFoundWindows)
  else if IsChromeWindow env hwnd then (true, numberOfFoundWindows + 1)
  else (true, numberOfFoundWindows)

/-- The EnumWindows driver loop: applies EnumChromeWindowsCallback to each
top-level window in order, stopping early when the callback returns
false. -/
def enumWindowsFrom (env : WinEnv) (closeWindow : Bool) :
    List Nat → Nat → Nat
  | [], acc => acc
  | w :: ws, acc =>
    let r := EnumChromeWindowsCallback env closeWindow w acc
    if r.1 then enumWindowsFrom env closeWindow ws r.2 else r.2

/-- One EnumWindows pass over the given top-level windows, starting from
a zero count, as in IsAnyChromeWindowsRunning (lines 200-207) and
CloseLiveBrowser (lines 410-414). -/
def EnumWindowsCount (env : WinEnv) (windows : List Nat)
    (closeWindow : Bool) : Nat :=
  enumWindowsFrom env closeWindow windows 0

/-- IsAnyChromeWindowsRunning, live_browser_preview_win.cc lines 200-207. -/
def IsAnyChromeWindowsRunning (env : WinEnv) (windows : List Nat) : Bool :=
  EnumWindowsCount env windows false != 0

/-- ConvertWinErrorCode, live_browser_preview_win.cc lines 375-394: maps a
WinError.h code to the portable error codes.  The source declares a
default argument isReading = true; it is passed explicitly here. -/
def ConvertWinErrorCode (errorCode : Int) (isReading : Bool) : Int :=
  if errorCode = NO_ERROR then NO_ERROR
  else if errorCode = ERROR_PATH_NOT_FOUND then ERR_NOT_FOUND
  else if errorCode = ERROR_FILE_NOT_FOUND then ERR_NOT_FOUND
  else if errorCode = ERROR_ACCESS_DENIED then
    if isReading then ERR_CANT_READ else ERR_CANT_WRITE
  else if errorCode = ERROR_WRITE_PROTECT then ERR_CANT_WRITE
  else if errorCode = ERROR_HANDLE_DISK_FULL then ERR_OUT_OF_SPACE
  else if errorCode = ERROR_ALREADY_EXISTS then ERR_FILE_EXISTS
  else ERR_UNKNOWN

/-- Wide-string literal built at live_browser_preview_win.cc line 344. -/
def userDataDirFlag : List Char := " --user-data-dir=\x22".toList

/-- Wide-string literal appended at live_browser_preview_win.cc line 343. -/
def liveDevProfileSegment : List Char := "\\live-dev-profile".toList

/-- Wide-string literal built at live_browser_preview_win.cc line 346:
closing quote of the profile directory followed by the fixed flags and a
trailing space. -/
def remoteDebugFlags : List Char :=
  "\x22 --no-first-run --no-default-browser-check --allow-file-access-from-files --remote-debugging-port=9222 ".toList

/-- OpenLiveBrowser, live_browser_preview_win.cc lines 336-371: builds
the argument string (executable path, optional debugging and profile
flags, then the URL) and starts the process; returns the pair of the
portable result code (ConvertWinErrorCode of GetLastError when
CreateProcess fails, NO_ERROR otherwise) and the argument string handed
to CreateProcess. -/
def OpenLiveBrowser (env : WinEnv) (argURL : List Char)
    (enableRemoteDebugging : Bool) (appSupportDirectory : List Char) :
    Int × List Char :=
  let appPath := GetPathToLiveBrowser env
  let args := appPath
  let args :=
    if enableRemoteDebugging then
      let profilePath := appSupportDirectory ++ liveDevProfileSegment
      args ++ userDataDirFlag ++ profilePath ++ remoteDebugFlags
    else args ++ " ".toList
  let args := args ++ argURL
  match env.createProcessError with
  | some e => (ConvertWinErrorCode e true, args)
  | none => (NO_ERROR, args)

/-- A concrete environment: a window whose owning process cannot be
opened (OpenProcess fails for every pid). -/
def envOpenProcessFails : WinEnv :=
  { registryChromePath := some "C:\\app.exe".toList, localAppData := [],
    windowProcessId := fun h => h, openProcess := fun _ => false,
    moduleFileName := fun _ => [], shortPathName := fun p => some p,
    createProcessError := none }

/-- A concrete environment: the installed browser is registered under
c:\chrome.exe, every process is owned by C:\CHROME.EXE, and short-path
conversion is the identity. -/
def envChromeInstalled : WinEnv :=
  { registryChromePath := some "c:\\chrome.exe".toList,
    localAppData := "C:\\Users\\u\\AppData\\Local".toList,
    windowProcessId := fun _ => 7, openProcess := fun _ => true,
    moduleFileName := fun _ => "C:\\CHROME.EXE".toList,
    shortPathName := fun p => some p, createProcessError := none }

/-- A concrete environment: the registry lookup misses. -/
def envRegistryMiss : WinEnv :=
  { registryChromePath := none,
    localAppData := "C:\\Users\\u\\AppData\\Local".toList,
    windowProcessId := fun _ => 0, openProcess := fun _ => false,
    moduleFileName := fun _ => [], shortPathName := fun _ => none,
    createProcessError := none }

/-- A concrete environment: CreateProcess fails with access denied. -/
def envCreateProcessDenied : WinEnv :=
  { registryChromePath := none, localAppData := [],
    windowProcessId := fun _ => 0, openProcess := fun _ => false,
    moduleFileName := fun _ => [], shortPathName := fun _ => none,
    createProcessError := some ERROR_ACCESS_DENIED }

/-- Heartbeat timer period in milliseconds, live_browser_preview_win.cc
line 273 (SetTimer(NULL, 0, 30, CloseLiveBrowserTimerCallback)). -/
def heartbeatMillis : Nat := 30

/-- Close-timeout timer period in milliseconds,
live_browser_preview_win.cc line 420 (SetTimer(NULL, 0, 10 * 1000,
CloseLiveBrowserTimerCallback)). -/
def timeoutMillis : Nat := 10 * 1000

/-- State of the LiveBrowserMgrWin singleton together with the model
bookkeeping needed to reason about traces.  heartbeatTimerId and
timeoutTimerId are the m_closeLiveBrowserHeartbeatTimerId and
m_closeLiveBrowserTimeoutTimerId fields (0 = no timer); closeCallback is
the m_closeLiveBrowserCallback slot, holding the index of the
CloseLiveBrowser invocation it belongs to.  armed is the set of OS timers
currently scheduled by SetTimer, as (id, period in ms) pairs; nextTimer
generates fresh nonzero SetTimer ids; nextInv numbers CloseLiveBrowser
invocations; firedLog records, in order, each SendProcessMessage response
actually delivered by CloseLiveBrowserFireCallback as (invocation, value);
nullFires counts executions of CloseLiveBrowserFireCallback with a NULL
m_closeLiveBrowserCallback (a null dereference in the source); pendingAcks
counts WM_CLOSE SendMessageCallback completions not yet delivered;
enumCount counts EnumWindows passes. -/
structure MgrState where
  heartbeatTimerId : Nat
  timeoutTimerId : Nat
  closeCallback : Option Nat
  armed : List (Nat × Nat)
  nextTimer : Nat
  nextInv : Nat
  firedLog : List (Nat × Int)
  nullFires : Nat
  pendingAcks : Nat
  enumCount : Nat
deriving Repr, DecidableEq

/-- The ids of the currently armed OS timers. -/
def timerIds (armed : List (Nat × Nat)) : List Nat :=
  armed.map Prod.fst

/-- KillTimer on the armed-timer set. -/
def KillTimer (armed : List (Nat × Nat)) (id : Nat) : List (Nat × Nat) :=
  armed.filter (fun d => d.1 ≠ id)

/-- CloseLiveBrowserKillTimers, live_browser_preview_win.cc lines 209-220:
kills the heartbeat timer and the timeout timer when their ids are
nonzero and zeroes both fields. -/
def CloseLiveBrowserKillTimers (s : MgrState) : MgrState :=
  let armed :=
    if s.heartbeatTimerId ≠ 0 then KillTimer s.armed s.heartbeatTimerId
    else s.armed
  let armed :=
    if s.timeoutTimerId ≠ 0 then KillTimer armed s.timeoutTimerId
    else armed
  { s with armed := armed, heartbeatTimerId := 0, timeoutTimerId := 0 }

/-- CloseLiveBrowserFireCallback, live_browser_preview_win.cc lines
222-238: kills both timers, sends the response carrying valToSend, and
clears the callback slot.  The source starts by dereferencing
m_closeLiveBrowserCallback, so when the slot is NULL it crashes before
reaching KillTimers; that execution is modelled as a recorded nullFire
that changes nothing else. -/
def CloseLiveBrowserFireCallback (s : MgrState) (valToSend : Int) :
    MgrState :=
  match s.closeCallback with
  | none => { s with nullFires := s.nullFires + 1 }
  | some inv =>
    let t := CloseLiveBrowserKillTimers s
    { t with firedLog := t.firedLog ++ [(inv, valToSend)],
             closeCallback := none }

/-- CloseLiveBrowserTimerCallback, live_browser_preview_win.cc lines
240-259, for a live singleton: IsAnyChromeWindowsRunning (one EnumWindows
pass; its outcome at this instant is the event's running flag); while
windows remain, a heartbeat tick merely waits for the next beat, any
other timer fires the callback with ERR_UNKNOWN; once no window remains,
the callback fires with NO_ERROR. -/
def CloseLiveBrowserTimerCallback (s : MgrState) (idEvent : Nat)
    (running : Bool) : MgrState :=
  let s := { s with enumCount := s.enumCount + 1 }
  if running then
    if idEvent = s.heartbeatTimerId then s
    else CloseLiveBrowserFireCallback s ERR_UNKNOWN
  else CloseLiveBrowserFireCallback s NO_ERROR

/-- CloseLiveBrowserAsyncCallback, live_browser_preview_win.cc lines
261-275, for a live singleton: a WM_CLOSE SendMessageCallback completion
(one pendingAck is consumed) runs IsAnyChromeWindowsRunning (one
EnumWindows pass; outcome = running); with no window left it fires the
callback with NO_ERROR, otherwise it arms the 30 ms heartbeat timer when
none is armed yet. -/
def CloseLiveBrowserAsyncCallback (s : MgrState) (running : Bool) :
    MgrState :=
  let s := { s with pendingAcks := s.pendingAcks - 1,
                    enumCount := s.enumCount + 1 }
  if running = false then CloseLiveBrowserFireCallback s NO_ERROR
  else if s.heartbeatTimerId = 0 then
    { s with heartbeatTimerId := s.nextTimer,
             armed := (s.nextTimer, heartbeatMillis) :: s.armed,
             nextTimer := s.nextTimer + 1 }
  else s

/-- CloseLiveBrowser lines 407-408: store the new close callback (a fresh
invocation index) in the singleton. -/
def CloseLiveBrowserStore (s : MgrState) : MgrState :=
  { s with closeCallback := some s.nextInv, nextInv := s.nextInv + 1 }

/-- CloseLiveBrowser lines 410-414: the EnumWindows(closeWindow = true)
pass; matchCount matching windows are found and each is sent WM_CLOSE, so
matchCount acks become pending. -/
def CloseLiveBrowserEnumerate (s : MgrState) (matchCount : Nat) : MgrState :=
  { s with enumCount := s.enumCount + 1,
           pendingAcks := s.pendingAcks + matchCount }

/-- CloseLiveBrowser lines 416-421: with no matching window fire NO_ERROR
at once, otherwise arm the 10-second timeout timer while the callback
slot is still occupied. -/
def CloseLiveBrowserFinish (s : MgrState) (matchCount : Nat) : MgrState :=
  if matchCount = 0 then CloseLiveBrowserFireCallback s NO_ERROR
  else if s.closeCallback.isSome then
    { s with timeoutTimerId := s.nextTimer,
             armed := (s.nextTimer, timeoutMillis) :: s.armed,
             nextTimer := s.nextTimer + 1 }
  else s

/-- Second half of CloseLiveBrowser, live_browser_preview_win.cc lines
407-421, starting after the supersede step. -/
def CloseLiveBrowserArm (s : MgrState) (matchCount : Nat) : MgrState :=
  CloseLiveBrowserFinish
    (CloseLiveBrowserEnumerate (CloseLiveBrowserStore s) matchCount)
    matchCount

/-- CloseLiveBrowser, live_browser_preview_win.cc lines 397-422: when a
callback is already pending it is fired immediately with ERR_UNKNOWN
(only one async close at a time), then the new close proceeds through
CloseLiveBrowserArm. -/
def CloseLiveBrowser (s : MgrState) (matchCount : Nat) : MgrState :=
  let s :=
    if s.closeCallback.isSome then CloseLiveBrowserFireCallback s ERR_UNKNOWN
    else s
  CloseLiveBrowserArm s matchCount

/-- The events the close protocol reacts to.  close is a host
CloseLiveBrowser call, carrying the number of matching windows the
EnumWindows pass finds at that instant; timerFire is the OS delivering a
scheduled timer with the given id, running being the
IsAnyChromeWindowsRunning outcome at that instant; ack is the OS
delivering a WM_CLOSE SendMessageCallback completion. -/
inductive Ev where
  | close (matchCount : Nat)
  | timerFire (id : Nat) (running : Bool)
  | ack (running : Bool)
deriving Repr, DecidableEq

/-- One step of the close-protocol state machine. -/
def step (s : MgrState) : Ev → MgrState
  | Ev.close matchCount => CloseLiveBrowser s matchCount
  | Ev.timerFire id running => CloseLiveBrowserTimerCallback s id running
  | Ev.ack running => CloseLiveBrowserAsyncCallback s running

/-- OS scheduling constraints: a timer only fires while armed, and a
WM_CLOSE completion is only delivered while one is outstanding. -/
def stepValid (s : MgrState) : Ev → Bool
  | Ev.close _ => true
  | Ev.timerFire id _ => (timerIds s.armed).contains id
  | Ev.ack _ => decide (0 < s.pendingAcks)

/-- A trace is valid from s when every event respects the OS scheduling
constraints in the state it is delivered in. -/
def validFrom (s : MgrState) : List Ev → Bool
  | [] => true
  | e :: es => stepValid s e && validFrom (step s e) es

/-- Run a trace of events. -/
def run (s : MgrState) : List Ev → MgrState
  | [] => s
  | e :: es => run (step s e) es

/-- The LiveBrowserMgrWin singleton as constructed (lines 109-113): no
timers, no pending callback, nothing fired. -/
def initState : MgrState :=
  { heartbeatTimerId := 0, timeoutTimerId := 0, closeCallback := none,
    armed := [], nextTimer := 1, nextInv := 0, firedLog := [],
    nullFires := 0, pendingAcks := 0, enumCount := 0 }

/-- How many times the callback of close invocation inv was fired. -/
def countFired (inv : Nat) (log : List (Nat × Int)) : Nat :=
  (log.filter (fun p => p.1 == inv)).length

/-- State invariant of the close protocol: fired responses name existing
invocations; the pending invocation exists and has not fired; every other
past invocation has fired exactly once; a pending callback keeps the
timeout timer armed and an empty slot keeps it disarmed; the armed OS
timers are exactly described by the two id fields; SetTimer ids are fresh
and distinct. -/
structure Inv (s : MgrState) : Prop where
  logIds : ∀ p ∈ s.firedLog, p.1 < s.nextInv
  cbLt : ∀ inv, s.closeCallback = some inv → inv < s.nextInv
  cbNotFired : ∀ inv, s.closeCallback = some inv → countFired inv s.firedLog = 0
  doneFired : ∀ inv, inv < s.nextInv → s.closeCallback ≠ some inv →
    countFired inv s.firedLog = 1
  cbTimeout : s.closeCallback ≠ none → s.timeoutTimerId ≠ 0
  noCbNoTimeout : s.closeCallback = none → s.timeoutTimerId = 0
  timeoutArmed : s.timeoutTimerId ≠ 0 → (s.timeoutTimerId, timeoutMillis) ∈ s.armed
  heartbeatArmed : s.heartbeatTimerId ≠ 0 →
    (s.heartbeatTimerId, heartbeatMillis) ∈ s.armed
  armedShape : ∀ d ∈ s.armed,
    d.1 ≠ 0 ∧ (d.1 = s.heartbeatTimerId ∨ d.1 = s.timeoutTimerId)
  armedLt : ∀ d ∈ s.armed, d.1 < s.nextTimer
  hbLt : s.heartbeatTimerId < s.nextTimer
  toLt : s.timeoutTimerId < s.nextTimer
  timerPos : 0 < s.nextTimer
  hbNeTo : s.heartbeatTimerId ≠ 0 → s.heartbeatTimerId ≠ s.timeoutTimerId

theorem countFired_append (inv j : Nat) (v : Int) (log : List (Nat × Int)) :
    countFired inv (log ++ [(j, v)]) =
      countFired inv log + (if j = inv then 1 else 0) := by
  by_cases h : j = inv <;>
    simp [countFired, List.filter_append, List.filter_cons, h]

theorem countFired_eq_zero {inv : Nat} {log : List (Nat × Int)}
    (h : ∀ p ∈ log, p.1 ≠ inv) : countFired inv log = 0 := by
  have : log.filter (fun p => p.1 == inv) = [] := by
    apply List.filter_eq_nil.mpr
    intro p hp
    simpa using h p hp
  simp [countFired, this]

theorem fireCallback_none {s : MgrState} (hc : s.closeCallback = none)
    (v : Int) :
    CloseLiveBrowserFireCallback s v = { s with nullFires := s.nullFires + 1 } := by
  simp [CloseLiveBrowserFireCallback, hc]

theorem killTimers_eq {s : MgrState}
    (h : ∀ d ∈ s.armed,
      d.1 ≠ 0 ∧ (d.1 = s.heartbeatTimerId ∨ d.1 = s.timeoutTimerId)) :
    CloseLiveBrowserKillTimers s =
      { s with armed := [], heartbeatTimerId := 0, timeoutTimerId := 0 } := by
  have hnil : (if s.timeoutTimerId ≠ 0 then
        KillTimer (if s.heartbeatTimerId ≠ 0 then
          KillTimer s.armed s.heartbeatTimerId else s.armed) s.timeoutTimerId
      else if s.heartbeatTimerId ≠ 0 then
        KillTimer s.armed s.heartbeatTimerId else s.armed) = [] := by
    apply List.eq_nil_iff_forall_not_mem.mpr
    intro d hd
    have hmem : d ∈ s.armed ∧ (s.heartbeatTimerId ≠ 0 → d.1 ≠ s.heartbeatTimerId) ∧
        (s.timeoutTimerId ≠ 0 → d.1 ≠ s.timeoutTimerId) := by
      by_cases hhb : s.heartbeatTimerId ≠ 0 <;> by_cases hto : s.timeoutTimerId ≠ 0 <;>
        simp [hhb, hto, KillTimer, List.mem_filter] at hd <;> tauto
    obtain ⟨hmem', hh, ht⟩ := hmem
    obtain ⟨hne, hor⟩ := h d hmem'
    rcases hor with he | he
    · exact hh (by rw [← he]; exact hne) he
    · exact ht (by rw [← he]; exact hne) he
  have hrfl : CloseLiveBrowserKillTimers s =
      { s with armed := (if s.timeoutTimerId ≠ 0 then KillTimer (if s.heartbeatTimerId ≠ 0 then KillTimer s.armed s.heartbeatTimerId else s.armed) s.timeoutTimerId else if s.heartbeatTimerId ≠ 0 then KillTimer s.armed s.heartbeatTimerId else s.armed), heartbeatTimerId := 0, timeoutTimerId := 0 } := rfl
  rw [hrfl, hnil]

theorem fireCallback_some (s : MgrState) (inv : Nat) (v : Int)
    (hc : s.closeCallback = some inv)
    (h : ∀ d ∈ s.armed,
      d.1 ≠ 0 ∧ (d.1 = s.heartbeatTimerId ∨ d.1 = s.timeoutTimerId)) :
    CloseLiveBrowserFireCallback s v =
      { s with armed := [], heartbeatTimerId := 0, timeoutTimerId := 0,
               firedLog := s.firedLog ++ [(inv, v)], closeCallback := none } := by
  unfold CloseLiveBrowserFireCallback
  rw [hc, killTimers_eq h]

theorem inv_transfer {s : MgrState} (h : Inv s) (nf pa ec : Nat) :
    Inv { s with nullFires := nf, pendingAcks := pa, enumCount := ec } :=
  { logIds := h.logIds, cbLt := h.cbLt, cbNotFired := h.cbNotFired,
    doneFired := h.doneFired, cbTimeout := h.cbTimeout,
    noCbNoTimeout := h.noCbNoTimeout, timeoutArmed := h.timeoutArmed,
    heartbeatArmed := h.heartbeatArmed, armedShape := h.armedShape,
    armedLt := h.armedLt, hbLt := h.hbLt, toLt := h.toLt,
    timerPos := h.timerPos, hbNeTo := h.hbNeTo }

theorem inv_fire {s : MgrState} (h : Inv s) (v : Int) :
    Inv (CloseLiveBrowserFireCallback s v) := by
  cases hc : s.closeCallback with
  | none =>
    rw [fireCallback_none hc]
    exact inv_transfer h _ _ _
  | some inv =>
    rw [fireCallback_some s inv v hc h.armedShape]
    refine
      { logIds := ?_, cbLt := ?_, cbNotFired := ?_, doneFired := ?_,
        cbTimeout := ?_, noCbNoTimeout := ?_, timeoutArmed := ?_,
        heartbeatArmed := ?_, armedShape := ?_, armedLt := ?_,
        hbLt := ?_, toLt := ?_, timerPos := ?_, hbNeTo := ?_ }
    · intro p hp
      rcases List.mem_append.mp hp with hp | hp
      · exact h.logIds p hp
      · have : p = (inv, v) := by simpa using hp
        rw [this]
        exact h.cbLt inv hc
    · intro j hj
      simp at hj
    · intro j hj
      simp at hj
    · intro j hjlt _
      rw [countFired_append]
      by_cases hji : inv = j
      · subst hji
        rw [h.cbNotFired inv hc]
        simp
      · have hne : s.closeCallback ≠ some j := by
          rw [hc]
          simp
          intro he
          exact hji he
        rw [h.doneFired j hjlt hne]
        simp [hji]
    · intro hne
      exact absurd rfl hne
    · intro _
      rfl
    · intro h0
      exact absurd rfl h0
    · intro h0
      exact absurd rfl h0
    · intro d hd
      simp at hd
    · intro d hd
      simp at hd
    · exact h.timerPos
    · exact h.timerPos
    · exact h.timerPos
    · intro h0
      exact absurd rfl h0

theorem inv_finish {u : MgrState} (matchCount : Nat)
    (logIds : ∀ p ∈ u.firedLog, p.1 < u.nextInv)
    (hcb : ∃ j, u.closeCallback = some j ∧ j < u.nextInv ∧
      countFired j u.firedLog = 0)
    (doneF : ∀ j, j < u.nextInv → u.closeCallback ≠ some j →
      countFired j u.firedLog = 1)
    (hto0 : u.timeoutTimerId = 0)
    (hbArm : u.heartbeatTimerId ≠ 0 →
      (u.heartbeatTimerId, heartbeatMillis) ∈ u.armed)
    (ashape : ∀ d ∈ u.armed,
      d.1 ≠ 0 ∧ (d.1 = u.heartbeatTimerId ∨ d.1 = u.timeoutTimerId))
    (aLt : ∀ d ∈ u.armed, d.1 < u.nextTimer)
    (hbLt : u.heartbeatTimerId < u.nextTimer)
    (tPos : 0 < u.nextTimer) :
    Inv (CloseLiveBrowserFinish u matchCount) := by
  obtain ⟨j, hcbj, hjlt, hj0⟩ := hcb
  unfold CloseLiveBrowserFinish
  by_cases hm : matchCount = 0
  · rw [if_pos hm, fireCallback_some u j NO_ERROR hcbj ashape]
    refine
      { logIds := ?_, cbLt := ?_, cbNotFired := ?_, doneFired := ?_,
        cbTimeout := ?_, noCbNoTimeout := ?_, timeoutArmed := ?_,
        heartbeatArmed := ?_, armedShape := ?_, armedLt := ?_,
        hbLt := ?_, toLt := ?_, timerPos := ?_, hbNeTo := ?_ }
    · intro p hp
      rcases List.mem_append.mp hp with hp | hp
      · exact logIds p hp
      · have : p = (j, NO_ERROR) := by simpa using hp
        rw [this]
        exact hjlt
    · intro k hk
      simp at hk
    · intro k hk
      simp at hk
    · intro k hklt _
      rw [countFired_append]
      by_cases hkj : j = k
      · subst hkj
        rw [hj0]
        simp
      · have hne : u.closeCallback ≠ some k := by
          rw [hcbj]
          simp
          intro he
          exact hkj he
        rw [doneF k hklt hne]
        simp [hkj]
    · intro hne
      exact absurd rfl hne
    · intro _
      rfl
    · intro h0
      exact absurd rfl h0
    · intro h0
      exact absurd rfl h0
    · intro d hd
      simp at hd
    · intro d hd
      simp at hd
    · exact tPos
    · exact tPos
    · exact tPos
    · intro h0
      exact absurd rfl h0
  · have hs : u.closeCallback.isSome := by
      rw [hcbj]
      rfl
    rw [if_neg hm, if_pos hs]
    refine
      { logIds := ?_, cbLt := ?_, cbNotFired := ?_, doneFired := ?_,
        cbTimeout := ?_, noCbNoTimeout := ?_, timeoutArmed := ?_,
        heartbeatArmed := ?_, armedShape := ?_, armedLt := ?_,
        hbLt := ?_, toLt := ?_, timerPos := ?_, hbNeTo := ?_ }
    · exact logIds
    · intro k hk
      rw [hcbj] at hk
      have : j = k := by simpa using hk
      rw [← this]
      exact hjlt
    · intro k hk
      rw [hcbj] at hk
      have : j = k := by simpa using hk
      rw [← this]
      exact hj0
    · exact doneF
    · intro _
      exact Nat.pos_iff_ne_zero.mp tPos
    · intro he
      rw [hcbj] at he
      simp at he
    · intro _
      exact List.mem_cons_self _ _
    · intro h0
      exact List.mem_cons_of_mem _ (hbArm h0)
    · intro d hd
      rcases List.mem_cons.mp hd with hd | hd
      · rw [hd]
        exact ⟨Nat.pos_iff_ne_zero.mp tPos, Or.inr rfl⟩
      · obtain ⟨hne, hor⟩ := ashape d hd
        refine ⟨hne, ?_⟩
        rcases hor with he | he
        · exact Or.inl he
        · rw [hto0] at he
          exact absurd he hne
    · intro d hd
      rcases List.mem_cons.mp hd with hd | hd
      · rw [hd]
        exact Nat.lt_succ_self _
      · exact Nat.lt_succ_of_lt (aLt d hd)
    · exact Nat.lt_succ_of_lt hbLt
    · exact Nat.lt_succ_self _
    · exact Nat.lt_succ_of_lt tPos
    · intro h0
      exact Nat.ne_of_lt hbLt

theorem inv_arm {s : MgrState} (h : Inv s) (hc : s.closeCallback = none)
    (matchCount : Nat) : Inv (CloseLiveBrowserArm s matchCount) := by
  have hto0 : s.timeoutTimerId = 0 := h.noCbNoTimeout hc
  have hcount0 : countFired s.nextInv s.firedLog = 0 :=
    countFired_eq_zero fun p hp => Nat.ne_of_lt (h.logIds p hp)
  refine inv_finish matchCount ?_ ?_ ?_ ?_ ?_ ?_ ?_ ?_ ?_
  · exact fun p hp => Nat.lt_succ_of_lt (h.logIds p hp)
  · exact ⟨s.nextInv, rfl, Nat.lt_succ_self _, hcount0⟩
  · intro j hj hne
    have hjne : j ≠ s.nextInv := by
      intro he
      apply hne
      rw [he]
      rfl
    have hj' : j < s.nextInv + 1 := hj
    have hjlt : j < s.nextInv := by omega
    exact h.doneFired j hjlt (by simp [hc])
  · exact hto0
  · exact h.heartbeatArmed
  · exact h.armedShape
  · exact h.armedLt
  · exact h.hbLt
  · exact h.timerPos

theorem inv_close {s : MgrState} (h : Inv s) (matchCount : Nat) :
    Inv (CloseLiveBrowser s matchCount) := by
  unfold CloseLiveBrowser
  by_cases hc : s.closeCallback.isSome
  · obtain ⟨inv, hinv⟩ := Option.isSome_iff_exists.mp hc
    rw [if_pos hc]
    refine inv_arm (inv_fire h ERR_UNKNOWN) ?_ matchCount
    rw [fireCallback_some s inv ERR_UNKNOWN hinv h.armedShape]
  · rw [if_neg hc]
    exact inv_arm h (Option.not_isSome_iff_eq_none.mp hc) matchCount

theorem inv_timer {s : MgrState} (h : Inv s) (idEvent : Nat)
    (running : Bool) : Inv (CloseLiveBrowserTimerCallback s idEvent running) := by
  have h1 : Inv { s with enumCount := s.enumCount + 1 } :=
    inv_transfer h _ _ _
  dsimp only [CloseLiveBrowserTimerCallback]
  cases running with
  | false => exact inv_fire h1 NO_ERROR
  | true =>
    by_cases hid : idEvent = s.heartbeatTimerId
    · simp only [if_pos hid, if_pos rfl]
      exact h1
    · simp only [if_neg hid]
      simp only [if_true]
      exact inv_fire h1 ERR_UNKNOWN

theorem inv_ack {s : MgrState} (h : Inv s) (running : Bool) :
    Inv (CloseLiveBrowserAsyncCallback s running) := by
  have h1 : Inv { s with pendingAcks := s.pendingAcks - 1, enumCount := s.enumCount + 1 } := inv_transfer h _ _ _
  dsimp only [CloseLiveBrowserAsyncCallback]
  by_cases hr : running = false
  · rw [if_pos hr]
    exact inv_fire h1 NO_ERROR
  · rw [if_neg hr]
    by_cases hhb : s.heartbeatTimerId = 0
    · rw [if_pos hhb]
      refine
        { logIds := h.logIds, cbLt := h.cbLt, cbNotFired := h.cbNotFired,
          doneFired := h.doneFired, cbTimeout := h.cbTimeout,
          noCbNoTimeout := h.noCbNoTimeout, timeoutArmed := ?_,
          heartbeatArmed := ?_, armedShape := ?_, armedLt := ?_,
          hbLt := ?_, toLt := ?_, timerPos := ?_, hbNeTo := ?_ }
      · intro h0
        exact List.mem_cons_of_mem _ (h.timeoutArmed h0)
      · intro _
        exact List.mem_cons_self _ _
      · intro d hd
        rcases List.mem_cons.mp hd with hd | hd
        · rw [hd]
          exact ⟨Nat.pos_iff_ne_zero.mp h.timerPos, Or.inl rfl⟩
        · obtain ⟨hne, hor⟩ := h.armedShape d hd
          refine ⟨hne, ?_⟩
          rcases hor with he | he
          · rw [hhb] at he
            exact absurd he hne
          · exact Or.inr he
      · intro d hd
        rcases List.mem_cons.mp hd with hd | hd
        · rw [hd]
          exact Nat.lt_succ_self _
        · exact Nat.lt_succ_of_lt (h.armedLt d hd)
      · exact Nat.lt_succ_self _
      · exact Nat.lt_succ_of_lt h.toLt
      · exact Nat.lt_succ_of_lt h.timerPos
      · intro _
        exact Nat.ne_of_gt h.toLt
    · rw [if_neg hhb]
      exact h1

theorem inv_step {s : MgrState} (h : Inv s) (e : Ev) : Inv (step s e) := by
  cases e with
  | close matchCount => exact inv_close h matchCount
  | timerFire id running => exact inv_timer h id running
  | ack running => exact inv_ack h running

theorem inv_run {s : MgrState} (h : Inv s) (evs : List Ev) :
    Inv (run s evs) := by
  induction evs generalizing s with
  | nil => exact h
  | cons e es ih => exact ih (inv_step h e)

theorem inv_init : Inv initState := by
  refine
    { logIds := ?_, cbLt := ?_, cbNotFired := ?_, doneFired := ?_,
      cbTimeout := ?_, noCbNoTimeout := ?_, timeoutArmed := ?_,
      heartbeatArmed := ?_, armedShape := ?_, armedLt := ?_,
      hbLt := ?_, toLt := ?_, timerPos := ?_, hbNeTo := ?_ } <;>
    simp [initState, countFired]

theorem nextTimer_not_mem {s : MgrState} (h : Inv s) :
    ¬ s.nextTimer ∈ timerIds s.armed := by
  intro hmem
  obtain ⟨d, hd, he⟩ := List.mem_map.mp hmem
  have hlt := h.armedLt d hd
  omega

theorem finish_zero (u : MgrState) (j : Nat) (hcb : u.closeCallback = some j)
    (hsh : ∀ d ∈ u.armed,
      d.1 ≠ 0 ∧ (d.1 = u.heartbeatTimerId ∨ d.1 = u.timeoutTimerId)) :
    CloseLiveBrowserFinish u 0 =
      { u with armed := [], heartbeatTimerId := 0, timeoutTimerId := 0,
               firedLog := u.firedLog ++ [(j, NO_ERROR)],
               closeCallback := none } := by
  unfold CloseLiveBrowserFinish
  rw [if_pos rfl, fireCallback_some u j NO_ERROR hcb hsh]

theorem finish_pos (u : MgrState) (matchCount : Nat) (hm : matchCount ≠ 0)
    (hcb : u.closeCallback.isSome) :
    CloseLiveBrowserFinish u matchCount =
      { u with timeoutTimerId := u.nextTimer,
               armed := (u.nextTimer, timeoutMillis) :: u.armed,
               nextTimer := u.nextTimer + 1 } := by
  unfold CloseLiveBrowserFinish
  rw [if_neg hm, if_pos hcb]

/-- C1: across the success, timeout, and superseded completion paths, the
completion callback of each CloseLiveBrowser invocation fires exactly
once.  Over every OS-valid event trace from the initial manager state, no
invocation's callback is ever fired twice, and once the trace is quiescent
(no armed timer is left, hence by the invariant no callback is pending)
every invocation issued so far has fired exactly once. -/
theorem closeLiveBrowser_callback_exactly_once (evs : List Ev)
    (hv : validFrom initState evs = true) :
    (∀ i, countFired i (run initState evs).firedLog ≤ 1) ∧
    ((run initState evs).armed = [] →
      ∀ i, i < (run initState evs).nextInv →
        countFired i (run initState evs).firedLog = 1) := by
  have hI : Inv (run initState evs) := inv_run inv_init evs
  constructor
  · intro i
    by_cases hc : (run initState evs).closeCallback = some i
    · rw [hI.cbNotFired i hc]
      exact Nat.zero_le _
    · by_cases hlt : i < (run initState evs).nextInv
      · rw [hI.doneFired i hlt hc]
      · have h0 : countFired i (run initState evs).firedLog = 0 :=
          countFired_eq_zero fun p hp => by
            have := hI.logIds p hp
            omega
        rw [h0]
        exact Nat.zero_le _
  · intro ha i hlt
    have hcb : (run initState evs).closeCallback = none := by
      cases hcc : (run initState evs).closeCallback with
      | none => rfl
      | some j =>
        have hto := hI.cbTimeout (by rw [hcc]; simp)
        have hmem := hI.timeoutArmed hto
        rw [ha] at hmem
        simp at hmem
    exact hI.doneFired i hlt (by rw [hcb]; simp)

theorem closeLiveBrowser_callback_exactly_once_witness :
    validFrom initState [Ev.close 2, Ev.ack true, Ev.ack false] = true ∧
    ((∀ i, countFired i
        (run initState [Ev.close 2, Ev.ack true, Ev.ack false]).firedLog ≤ 1) ∧
      ((run initState [Ev.close 2, Ev.ack true, Ev.ack false]).armed = [] →
        ∀ i, i < (run initState [Ev.close 2, Ev.ack true, Ev.ack false]).nextInv →
          countFired i
            (run initState [Ev.close 2, Ev.ack true, Ev.ack false]).firedLog = 1)) :=
  ⟨by decide,
    closeLiveBrowser_callback_exactly_once
      [Ev.close 2, Ev.ack true, Ev.ack false] (by decide)⟩

/-- C2 counterexample: the claim says the pending close's callback
receives the SUPERSEDED result.  On the trace close, close the superseded
invocation 0 receives ERR_UNKNOWN (= 1), which is not the spec's
SUPERSEDED code: the source has no SUPERSEDED constant at all and reuses
the generic ERR_UNKNOWN. -/
theorem closeLiveBrowser_supersede_value_not_superseded :
    validFrom initState [Ev.close 1, Ev.close 1] = true ∧
    (run initState [Ev.close 1, Ev.close 1]).firedLog.head? =
      some (0, ERR_UNKNOWN) ∧
    ERR_UNKNOWN ≠ ERR_SUPERSEDED := by
  decide

/-- C2 amended: if CloseLiveBrowser is called while a pending close
exists, the pending close is force-completed immediately — its callback
receives ERR_UNKNOWN (the source defines no distinct SUPERSEDED code) as
the first thing the new call does — and its timers are released before
the new close's timers are armed (every timer armed after the call is
fresh), and at most the new invocation is in flight afterwards. -/
theorem closeLiveBrowser_supersede_fires_and_releases_timers
    (evs : List Ev) (matchCount i : Nat)
    (hv : validFrom initState evs = true)
    (hp : (run initState evs).closeCallback = some i) :
    (∃ rest, (step (run initState evs) (Ev.close matchCount)).firedLog =
      (run initState evs).firedLog ++ (i, ERR_UNKNOWN) :: rest) ∧
    (∀ d ∈ (step (run initState evs) (Ev.close matchCount)).armed,
      ¬ d.1 ∈ timerIds (run initState evs).armed) ∧
    (∀ j, (step (run initState evs) (Ev.close matchCount)).closeCallback = some j →
      j = (run initState evs).nextInv) := by
  have hI : Inv (run initState evs) := inv_run inv_init evs
  set s := run initState evs with hs
  have hsome : s.closeCallback.isSome := by rw [hp]; rfl
  have e1 : step s (Ev.close matchCount) =
      CloseLiveBrowserFinish (CloseLiveBrowserEnumerate (CloseLiveBrowserStore { s with armed := [], heartbeatTimerId := 0, timeoutTimerId := 0, firedLog := s.firedLog ++ [(i, ERR_UNKNOWN)], closeCallback := none }) matchCount) matchCount := by
    show CloseLiveBrowser s matchCount = _
    unfold CloseLiveBrowser CloseLiveBrowserArm
    rw [if_pos hsome, fireCallback_some s i ERR_UNKNOWN hp hI.armedShape]
  by_cases hm : matchCount = 0
  · subst hm
    have e2 := finish_zero
      (CloseLiveBrowserEnumerate (CloseLiveBrowserStore { s with armed := [], heartbeatTimerId := 0, timeoutTimerId := 0, firedLog := s.firedLog ++ [(i, ERR_UNKNOWN)], closeCallback := none }) 0)
      s.nextInv rfl
      (fun d hd => absurd hd (List.not_mem_nil d))
    refine ⟨⟨[(s.nextInv, NO_ERROR)], ?_⟩, ?_, ?_⟩
    · rw [e1, e2]
      simp [CloseLiveBrowserEnumerate, CloseLiveBrowserStore]
    · rw [e1, e2]
      intro d hd
      exact absurd hd (List.not_mem_nil d)
    · rw [e1, e2]
      intro j hj
      simp at hj
  · have e2 := finish_pos
      (CloseLiveBrowserEnumerate (CloseLiveBrowserStore { s with armed := [], heartbeatTimerId := 0, timeoutTimerId := 0, firedLog := s.firedLog ++ [(i, ERR_UNKNOWN)], closeCallback := none }) matchCount)
      matchCount hm rfl
    refine ⟨⟨[], ?_⟩, ?_, ?_⟩
    · rw [e1, e2]
      simp [CloseLiveBrowserEnumerate, CloseLiveBrowserStore]
    · rw [e1, e2]
      intro d hd
      have hd' : d = (s.nextTimer, timeoutMillis) := by
        simpa [CloseLiveBrowserEnumerate, CloseLiveBrowserStore] using hd
      rw [hd']
      exact nextTimer_not_mem hI
    · rw [e1, e2]
      intro j hj
      have hj' : some s.nextInv = some j := by
        simpa [CloseLiveBrowserEnumerate, CloseLiveBrowserStore] using hj
      simpa using hj'.symm

theorem closeLiveBrowser_supersede_witness :
    (run initState [Ev.close 1]).closeCallback = some 0 ∧
    ((∃ rest, (step (run initState [Ev.close 1]) (Ev.close 2)).firedLog =
      (run initState [Ev.close 1]).firedLog ++ (0, ERR_UNKNOWN) :: rest) ∧
    (∀ d ∈ (step (run initState [Ev.close 1]) (Ev.close 2)).armed,
      ¬ d.1 ∈ timerIds (run initState [Ev.close 1]).armed) ∧
    (∀ j, (step (run initState [Ev.close 1]) (Ev.close 2)).closeCallback = some j →
      j = (run initState [Ev.close 1]).nextInv)) :=
  ⟨by decide,
    closeLiveBrowser_supersede_fires_and_releases_timers
      [Ev.close 1] 2 0 (by decide) (by decide)⟩

/-- C3 counterexample: on the trace close(1), timeout-fire the close
completes, but with ERR_UNKNOWN (= 1) rather than the spec's TIMEOUT
code (the source has no TIMEOUT constant); and enumeration does not stop
at completion: a still-pending WM_CLOSE ack arriving afterwards is valid,
performs another EnumWindows pass, and even re-arms the heartbeat
timer. -/
theorem closeLiveBrowser_timeout_value_and_late_enumeration :
    validFrom initState [Ev.close 1, Ev.timerFire 1 true] = true ∧
    (run initState [Ev.close 1, Ev.timerFire 1 true]).firedLog =
      [(0, ERR_UNKNOWN)] ∧
    ERR_UNKNOWN ≠ ERR_TIMEOUT ∧
    (run initState [Ev.close 1, Ev.timerFire 1 true]).closeCallback = none ∧
    validFrom initState [Ev.close 1, Ev.timerFire 1 true, Ev.ack true] = true ∧
    (run initState [Ev.close 1, Ev.timerFire 1 true, Ev.ack true]).enumCount =
      (run initState [Ev.close 1, Ev.timerFire 1 true]).enumCount + 1 ∧
    (run initState [Ev.close 1, Ev.timerFire 1 true, Ev.ack true]).heartbeatTimerId ≠ 0 := by
  decide

/-- C3 amended: whenever a close is pending, the timeout timer is armed
with the 10 000 ms period and firing it completes the close at once: the
callback receives ERR_UNKNOWN (the source reuses the generic error code,
having no TIMEOUT constant), the heartbeat timer and the timeout timer
are both cancelled (no armed timer remains, so no timer-driven
enumeration can follow), and the callback slot is cleared.  The claim's
final clause fails in the source: a WM_CLOSE ack delivered after
completion still enumerates, see the counterexample. -/
theorem closeLiveBrowser_timeout_completes_close (evs : List Ev) (i : Nat)
    (hv : validFrom initState evs = true)
    (hp : (run initState evs).closeCallback = some i) :
    ((run initState evs).timeoutTimerId, timeoutMillis) ∈ (run initState evs).armed ∧
    (step (run initState evs) (Ev.timerFire (run initState evs).timeoutTimerId true)).armed = [] ∧
    (step (run initState evs) (Ev.timerFire (run initState evs).timeoutTimerId true)).firedLog =
      (run initState evs).firedLog ++ [(i, ERR_UNKNOWN)] ∧
    (step (run initState evs) (Ev.timerFire (run initState evs).timeoutTimerId true)).closeCallback = none := by
  have hI : Inv (run initState evs) := inv_run inv_init evs
  set s := run initState evs with hs
  have hto : s.timeoutTimerId ≠ 0 := hI.cbTimeout (by rw [hp]; simp)
  have harm : (s.timeoutTimerId, timeoutMillis) ∈ s.armed := hI.timeoutArmed hto
  have hne : ¬ s.timeoutTimerId = s.heartbeatTimerId := by
    by_cases hhb : s.heartbeatTimerId = 0
    · rw [hhb]
      exact hto
    · exact Ne.symm (hI.hbNeTo hhb)
  have e1 : step s (Ev.timerFire s.timeoutTimerId true) =
      CloseLiveBrowserFireCallback { s with enumCount := s.enumCount + 1 } ERR_UNKNOWN := by
    show CloseLiveBrowserTimerCallback s s.timeoutTimerId true = _
    dsimp only [CloseLiveBrowserTimerCallback]
    rw [if_pos rfl, if_neg hne]
  have e2 : CloseLiveBrowserFireCallback { s with enumCount := s.enumCount + 1 } ERR_UNKNOWN =
      { s with enumCount := s.enumCount + 1, armed := [], heartbeatTimerId := 0, timeoutTimerId := 0, firedLog := s.firedLog ++ [(i, ERR_UNKNOWN)], closeCallback := none } :=
    fireCallback_some { s with enumCount := s.enumCount + 1 } i ERR_UNKNOWN hp hI.armedShape
  refine ⟨harm, ?_, ?_, ?_⟩
  · rw [e1, e2]
  · rw [e1, e2]
  · rw [e1, e2]

theorem closeLiveBrowser_timeout_witness :
    (run initState [Ev.close 1]).closeCallback = some 0 ∧
    (((run initState [Ev.close 1]).timeoutTimerId, timeoutMillis) ∈ (run initState [Ev.close 1]).armed ∧
    (step (run initState [Ev.close 1]) (Ev.timerFire (run initState [Ev.close 1]).timeoutTimerId true)).armed = [] ∧
    (step (run initState [Ev.close 1]) (Ev.timerFire (run initState [Ev.close 1]).timeoutTimerId true)).firedLog =
      (run initState [Ev.close 1]).firedLog ++ [(0, ERR_UNKNOWN)] ∧
    (step (run initState [Ev.close 1]) (Ev.timerFire (run initState [Ev.close 1]).timeoutTimerId true)).closeCallback = none) :=
  ⟨by decide,
    closeLiveBrowser_timeout_completes_close [Ev.close 1] 0 (by decide) (by decide)⟩

theorem openLiveBrowser_args_true (env : WinEnv) (url dir : List Char) :
    (OpenLiveBrowser env url true dir).2 =
      GetPathToLiveBrowser env ++ userDataDirFlag ++
        (dir ++ liveDevProfileSegment) ++ remoteDebugFlags ++ url := by
  unfold OpenLiveBrowser
  cases env.createProcessError <;> rfl

theorem openLiveBrowser_args_false (env : WinEnv) (url dir : List Char) :
    (OpenLiveBrowser env url false dir).2 =
      GetPathToLiveBrowser env ++ " ".toList ++ url := by
  unfold OpenLiveBrowser
  cases env.createProcessError <;> rfl

theorem remoteDebugFlags_split :
    remoteDebugFlags =
      "\x22 --no-first-run --no-default-browser-check --allow-file-access-from-files ".toList ++
        "--remote-debugging-port=9222".toList ++ " ".toList := by
  decide

/-- C4: with enableRemoteDebugging = true, the argument string is the
executable path, the user-data-dir flag naming the profile directory
suffixed with the live-dev-profile segment, the fixed flags including the
fixed remote-debugging port token, and the supplied URL last (preceded by
a space, hence the final token); with it false, the argument string is
exactly the executable path, a space, and the URL. -/
theorem openLiveBrowser_argument_string (env : WinEnv) (url dir : List Char) :
    ((OpenLiveBrowser env url true dir).2 =
      GetPathToLiveBrowser env ++ userDataDirFlag ++
        (dir ++ liveDevProfileSegment) ++ remoteDebugFlags ++ url) ∧
    ((dir ++ liveDevProfileSegment) <:+: (OpenLiveBrowser env url true dir).2) ∧
    ("--remote-debugging-port=9222".toList <:+: (OpenLiveBrowser env url true dir).2) ∧
    ((" ".toList ++ url) <:+ (OpenLiveBrowser env url true dir).2) ∧
    ((OpenLiveBrowser env url false dir).2 =
      GetPathToLiveBrowser env ++ " ".toList ++ url) := by
  refine ⟨openLiveBrowser_args_true env url dir, ?_, ?_, ?_,
    openLiveBrowser_args_false env url dir⟩
  · rw [openLiveBrowser_args_true env url dir]
    exact ⟨GetPathToLiveBrowser env ++ userDataDirFlag,
      remoteDebugFlags ++ url, by simp [List.append_assoc]⟩
  · have hmid : remoteDebugFlags <:+: (OpenLiveBrowser env url true dir).2 := by
      rw [openLiveBrowser_args_true env url dir]
      exact ⟨GetPathToLiveBrowser env ++ userDataDirFlag ++
          (dir ++ liveDevProfileSegment), url, by simp [List.append_assoc]⟩
    have htok : "--remote-debugging-port=9222".toList <:+: remoteDebugFlags := by
      rw [remoteDebugFlags_split]
      exact ⟨"\x22 --no-first-run --no-default-browser-check --allow-file-access-from-files ".toList,
        " ".toList, by simp [List.append_assoc]⟩
    exact htok.trans hmid
  · rw [openLiveBrowser_args_true env url dir, remoteDebugFlags_split]
    refine ⟨GetPathToLiveBrowser env ++ userDataDirFlag ++
      (dir ++ liveDevProfileSegment) ++
      ("\x22 --no-first-run --no-default-browser-check --allow-file-access-from-files ".toList ++
        "--remote-debugging-port=9222".toList), ?_⟩
    simp [List.append_assoc]

/-- C5 counterexample: ERROR_WRITE_PROTECT (= 19) is none of the four
enumerated failure categories, yet ConvertWinErrorCode maps it (with
isReading = true, as OpenLiveBrowser calls it) to ERR_CANT_WRITE, not to
ERR_UNKNOWN — so "anything else maps to UNKNOWN" is false. -/
theorem convertWinErrorCode_write_protect_not_unknown :
    ConvertWinErrorCode ERROR_WRITE_PROTECT true = ERR_CANT_WRITE ∧
    ERR_CANT_WRITE ≠ ERR_UNKNOWN ∧
    ¬ (ERROR_WRITE_PROTECT = ERROR_PATH_NOT_FOUND ∨
       ERROR_WRITE_PROTECT = ERROR_FILE_NOT_FOUND ∨
       ERROR_WRITE_PROTECT = ERROR_ACCESS_DENIED ∨
       ERROR_WRITE_PROTECT = ERROR_HANDLE_DISK_FULL ∨
       ERROR_WRITE_PROTECT = ERROR_ALREADY_EXISTS) := by
  decide

/-- C5 amended: an OS-level CreateProcess failure makes OpenLiveBrowser
return ConvertWinErrorCode(GetLastError(), isReading = true)
synchronously, applying the table exactly once and never retrying:
path/file-not-found map to ERR_NOT_FOUND, access-denied to ERR_CANT_READ,
disk-full to ERR_OUT_OF_SPACE, already-exists to ERR_FILE_EXISTS; in
addition the table maps a zero last-error to NO_ERROR and write-protect
to ERR_CANT_WRITE, and every remaining code to ERR_UNKNOWN. -/
theorem openLiveBrowser_maps_createProcess_error (env : WinEnv)
    (url dir : List Char) (dbg : Bool) (e : Int)
    (hfail : env.createProcessError = some e) :
    ((OpenLiveBrowser env url dbg dir).1 = ConvertWinErrorCode e true) ∧
    ((e = ERROR_PATH_NOT_FOUND ∨ e = ERROR_FILE_NOT_FOUND) →
      (OpenLiveBrowser env url dbg dir).1 = ERR_NOT_FOUND) ∧
    (e = ERROR_ACCESS_DENIED →
      (OpenLiveBrowser env url dbg dir).1 = ERR_CANT_READ) ∧
    (e = ERROR_HANDLE_DISK_FULL →
      (OpenLiveBrowser env url dbg dir).1 = ERR_OUT_OF_SPACE) ∧
    (e = ERROR_ALREADY_EXISTS →
      (OpenLiveBrowser env url dbg dir).1 = ERR_FILE_EXISTS) ∧
    (e = ERROR_WRITE_PROTECT →
      (OpenLiveBrowser env url dbg dir).1 = ERR_CANT_WRITE) ∧
    (e = NO_ERROR → (OpenLiveBrowser env url dbg dir).1 = NO_ERROR) ∧
    (¬ (e = NO_ERROR ∨ e = ERROR_PATH_NOT_FOUND ∨ e = ERROR_FILE_NOT_FOUND ∨
        e = ERROR_ACCESS_DENIED ∨ e = ERROR_WRITE_PROTECT ∨
        e = ERROR_HANDLE_DISK_FULL ∨ e = ERROR_ALREADY_EXISTS) →
      (OpenLiveBrowser env url dbg dir).1 = ERR_UNKNOWN) := by
  have h1 : (OpenLiveBrowser env url dbg dir).1 = ConvertWinErrorCode e true := by
    unfold OpenLiveBrowser
    rw [hfail]
  refine ⟨h1, ?_, ?_, ?_, ?_, ?_, ?_, ?_⟩
  · intro he
    rw [h1]
    rcases he with he | he <;> rw [he] <;> decide
  · intro he
    rw [h1, he]
    decide
  · intro he
    rw [h1, he]
    decide
  · intro he
    rw [h1, he]
    decide
  · intro he
    rw [h1, he]
    decide
  · intro he
    rw [h1, he]
    decide
  · intro he
    push_neg at he
    obtain ⟨g1, g2, g3, g4, g5, g6, g7⟩ := he
    rw [h1]
    simp [ConvertWinErrorCode, g1, g2, g3, g4, g5, g6, g7]

theorem openLiveBrowser_maps_createProcess_error_witness :
    envCreateProcessDenied.createProcessError = some ERROR_ACCESS_DENIED ∧
    (((OpenLiveBrowser envCreateProcessDenied [] true []).1 =
        ConvertWinErrorCode ERROR_ACCESS_DENIED true) ∧
      ((ERROR_ACCESS_DENIED = ERROR_PATH_NOT_FOUND ∨
          ERROR_ACCESS_DENIED = ERROR_FILE_NOT_FOUND) →
        (OpenLiveBrowser envCreateProcessDenied [] true []).1 = ERR_NOT_FOUND) ∧
      (ERROR_ACCESS_DENIED = ERROR_ACCESS_DENIED →
        (OpenLiveBrowser envCreateProcessDenied [] true []).1 = ERR_CANT_READ) ∧
      (ERROR_ACCESS_DENIED = ERROR_HANDLE_DISK_FULL →
        (OpenLiveBrowser envCreateProcessDenied [] true []).1 = ERR_OUT_OF_SPACE) ∧
      (ERROR_ACCESS_DENIED = ERROR_ALREADY_EXISTS →
        (OpenLiveBrowser envCreateProcessDenied [] true []).1 = ERR_FILE_EXISTS) ∧
      (ERROR_ACCESS_DENIED = ERROR_WRITE_PROTECT →
        (OpenLiveBrowser envCreateProcessDenied [] true []).1 = ERR_CANT_WRITE) ∧
      (ERROR_ACCESS_DENIED = NO_ERROR →
        (OpenLiveBrowser envCreateProcessDenied [] true []).1 = NO_ERROR) ∧
      (¬ (ERROR_ACCESS_DENIED = NO_ERROR ∨
          ERROR_ACCESS_DENIED = ERROR_PATH_NOT_FOUND ∨
          ERROR_ACCESS_DENIED = ERROR_FILE_NOT_FOUND ∨
          ERROR_ACCESS_DENIED = ERROR_ACCESS_DENIED ∨
          ERROR_ACCESS_DENIED = ERROR_WRITE_PROTECT ∨
          ERROR_ACCESS_DENIED = ERROR_HANDLE_DISK_FULL ∨
          ERROR_ACCESS_DENIED = ERROR_ALREADY_EXISTS) →
        (OpenLiveBrowser envCreateProcessDenied [] true []).1 = ERR_UNKNOWN)) :=
  ⟨rfl, openLiveBrowser_maps_createProcess_error envCreateProcessDenied
    [] [] true ERROR_ACCESS_DENIED rfl⟩

/-- C6: a non-NULL window whose owning process cannot be inspected
(OpenProcess fails, or short-path canonicalization fails on the module
path or on the locator result) is matched as false rather than as an
error, its callback step returns TRUE (continue) leaving the count
unchanged, and the whole enumeration pass gives the same count as if the
window were absent. -/
theorem uninspectable_window_skipped (env : WinEnv) (w : Nat) (h0 : w ≠ 0)
    (hf : env.openProcess (env.windowProcessId w) = false ∨
      env.shortPathName (env.moduleFileName (env.windowProcessId w)) = none ∨
      env.shortPathName (GetPathToLiveBrowser env) = none) :
    IsChromeWindow env w = false ∧
    (∀ b acc, EnumChromeWindowsCallback env b w acc = (true, acc)) ∧
    (∀ b ws1 ws2, EnumWindowsCount env (ws1 ++ w :: ws2) b =
      EnumWindowsCount env (ws1 ++ ws2) b) := by
  have hic : IsChromeWindow env w = false := by
    unfold IsChromeWindow ConvertToShortPathName
    rw [if_neg h0]
    rcases hf with hf | hf | hf
    · simp [hf]
    · by_cases hop : env.openProcess (env.windowProcessId w)
      · simp [hop, hf]
      · simp [hop]
    · by_cases hop : env.openProcess (env.windowProcessId w)
      · cases hmp : env.shortPathName (env.moduleFileName (env.windowProcessId w)) with
        | none => simp [hop, hmp]
        | some sp => simp [hop, hmp, hf]
      · simp [hop]
  have hcb : ∀ b acc, EnumChromeWindowsCallback env b w acc = (true, acc) := by
    intro b acc
    unfold EnumChromeWindowsCallback
    rw [if_neg h0, hic]
    simp
  refine ⟨hic, hcb, ?_⟩
  intro b ws1 ws2
  unfold EnumWindowsCount
  suffices hgen : ∀ acc, enumWindowsFrom env b (ws1 ++ w :: ws2) acc =
      enumWindowsFrom env b (ws1 ++ ws2) acc from hgen 0
  induction ws1 with
  | nil =>
    intro acc
    simp [enumWindowsFrom, hcb b acc]
  | cons x xs ih =>
    intro acc
    simp only [List.cons_append, enumWindowsFrom]
    by_cases hr : (EnumChromeWindowsCallback env b x acc).1 <;> simp [hr, ih]

theorem uninspectable_window_skipped_witness :
    envOpenProcessFails.openProcess (envOpenProcessFails.windowProcessId 5) = false ∧
    IsChromeWindow envOpenProcessFails 5 = false ∧
    EnumWindowsCount envOpenProcessFails [1, 5, 2] false =
      EnumWindowsCount envOpenProcessFails [1, 2] false :=
  ⟨rfl, (uninspectable_window_skipped envOpenProcessFails 5 (by decide)
      (Or.inl rfl)).1,
    (uninspectable_window_skipped envOpenProcessFails 5 (by decide)
      (Or.inl rfl)).2.2 false [1] [2]⟩

/-- C7: for a non-NULL window whose process can be inspected and whose
module path and the locator result both canonicalize, the Identity
Matcher returns true exactly when the two short forms agree
case-insensitively — so a window whose image path equals the locator
result up to canonicalization and case matches, and a window owned by an
unrelated executable does not. -/
theorem isChromeWindow_path_identity (env : WinEnv) (hwnd : Nat)
    (sp sa : List Char) (h0 : hwnd ≠ 0)
    (h1 : env.openProcess (env.windowProcessId hwnd) = true)
    (h2 : env.shortPathName (env.moduleFileName (env.windowProcessId hwnd)) = some sp)
    (h3 : env.shortPathName (GetPathToLiveBrowser env) = some sa) :
    (IsChromeWindow env hwnd = true ↔
      sp.map Char.toLower = sa.map Char.toLower) := by
  unfold IsChromeWindow ConvertToShortPathName
  rw [if_neg h0]
  simp [h1, h2, h3, wcsicmpEqual]
  exact eq_comm

theorem isChromeWindow_path_identity_witness :
    envChromeInstalled.openProcess (envChromeInstalled.windowProcessId 1) = true ∧
    IsChromeWindow envChromeInstalled 1 = true :=
  ⟨rfl,
    (isChromeWindow_path_identity envChromeInstalled 1
      ("C:\\CHROME.EXE".toList) ("c:\\chrome.exe".toList)
      (by decide) rfl rfl rfl).mpr (by decide)⟩

/-- C8: the Executable Locator is a total function (no error case in its
type); its result is either the installed-application registry value or
the deterministic fallback, and when the registry lookup misses it is
exactly the fallback path under the current user's local application
data, of which the local-application-data root is a prefix. -/
theorem getPathToLiveBrowser_never_fails (env : WinEnv)
    (hmiss : env.registryChromePath = none) :
    GetPathToLiveBrowser env = env.localAppData ++ chromeFallbackSuffix ∧
    env.localAppData <+: GetPathToLiveBrowser env ∧
    (∀ e : WinEnv,
      (∃ p, e.registryChromePath = some p ∧ GetPathToLiveBrowser e = p) ∨
      GetPathToLiveBrowser e = e.localAppData ++ chromeFallbackSuffix) := by
  have h1 : GetPathToLiveBrowser env = env.localAppData ++ chromeFallbackSuffix := by
    unfold GetPathToLiveBrowser
    rw [hmiss]
  refine ⟨h1, ?_, ?_⟩
  · rw [h1]
    exact List.prefix_append _ _
  · intro e
    cases he : e.registryChromePath with
    | some p =>
      exact Or.inl ⟨p, rfl, by unfold GetPathToLiveBrowser; rw [he]⟩
    | none =>
      exact Or.inr (by unfold GetPathToLiveBrowser; rw [he])

theorem getPathToLiveBrowser_never_fails_witness :
    envRegistryMiss.registryChromePath = none ∧
    (GetPathToLiveBrowser envRegistryMiss =
        envRegistryMiss.localAppData ++ chromeFallbackSuffix ∧
      envRegistryMiss.localAppData <+: GetPathToLiveBrowser envRegistryMiss ∧
      (∀ e : WinEnv,
        (∃ p, e.registryChromePath = some p ∧ GetPathToLiveBrowser e = p) ∨
        GetPathToLiveBrowser e = e.localAppData ++ chromeFallbackSuffix)) :=
  ⟨rfl, getPathToLiveBrowser_never_fails envRegistryMiss rfl⟩

/-- C9: a NULL window handle makes IsChromeWindow return false
immediately; the guard precedes every environment query, so the result is
false for every environment whatsoever, independently of the
process-resolution and path-query capabilities. -/
theorem isChromeWindow_null_handle (env : WinEnv) :
    IsChromeWindow env 0 = false := by
  simp [IsChromeWindow]

/-- C10: ConvertWinErrorCode is total with range confined to NO_ERROR,
ERR_NOT_FOUND, ERR_CANT_READ, ERR_CANT_WRITE, ERR_OUT_OF_SPACE,
ERR_FILE_EXISTS, ERR_UNKNOWN; it never yields ERR_BROWSER_NOT_INSTALLED,
so neither does a failed OpenLiveBrowser (which calls it with isReading =
true); access-denied with isReading = true gives ERR_CANT_READ, never
ERR_CANT_WRITE. -/
theorem convertWinErrorCode_total_range :
    (∀ (e : Int) (r : Bool), ConvertWinErrorCode e r ∈
      ([NO_ERROR, ERR_NOT_FOUND, ERR_CANT_READ, ERR_CANT_WRITE,
        ERR_OUT_OF_SPACE, ERR_FILE_EXISTS, ERR_UNKNOWN] : List Int)) ∧
    (∀ (e : Int) (r : Bool),
      ConvertWinErrorCode e r ≠ ERR_BROWSER_NOT_INSTALLED) ∧
    ConvertWinErrorCode ERROR_ACCESS_DENIED true = ERR_CANT_READ ∧
    ConvertWinErrorCode ERROR_ACCESS_DENIED true ≠ ERR_CANT_WRITE ∧
    (∀ (env : WinEnv) (url dir : List Char) (dbg : Bool) (e : Int),
      env.createProcessError = some e →
      (OpenLiveBrowser env url dbg dir).1 ≠ ERR_BROWSER_NOT_INSTALLED) := by
  have hnb : ∀ (e : Int) (r : Bool),
      ConvertWinErrorCode e r ≠ ERR_BROWSER_NOT_INSTALLED := by
    intro e r
    unfold ConvertWinErrorCode
    split_ifs <;> decide
  refine ⟨?_, hnb, by decide, by decide, ?_⟩
  · intro e r
    unfold ConvertWinErrorCode
    split_ifs <;> decide
  · intro env url dir dbg e hf
    have h1 : (OpenLiveBrowser env url dbg dir).1 = ConvertWinErrorCode e true := by
      unfold OpenLiveBrowser
      rw [hf]
    rw [h1]
    exact hnb e true

theorem convertWinErrorCode_total_range_witness :
    envCreateProcessDenied.createProcessError = some ERROR_ACCESS_DENIED ∧
    (OpenLiveBrowser envCreateProcessDenied [] false []).1 ≠
      ERR_BROWSER_NOT_INSTALLED :=
  ⟨rfl, convertWinErrorCode_total_range.2.2.2.2 envCreateProcessDenied
    [] [] false ERROR_ACCESS_DENIED rfl⟩

end LiveBrowserPreview
